import Mathlib

/-!
Shallow embedding of the training-monitor loop of
`hivemind/resnet/netmind/run_training_monitor.py`.

Python floats are modelled as rationals, Python ints as `Int`.
A Python exception raised inside a loop iteration is modelled as an
`Except.error` result of the tick function: the source loop contains no
try/except, so a raised exception propagates out of `while True` and
terminates the process.
-/

/-- Exceptions that the modelled code paths can raise, by kind. -/
inductive PyError where
  /-- The store read (`dht.get`) raised. -/
  | storeUnavailable
  /-- `utils.LocalMetrics.parse_obj` raised on a malformed peer payload. -/
  | malformedPeerRecord
  /-- `state_averager.load_state_from_peers()` raised or timed out. -/
  | stateAverageFailure
  /-- `hmp.save_pretrained()` raised. -/
  | uploadFailure
  /-- Python `max()` applied to an empty sequence. -/
  | valueError
  /-- Python division by zero (`sum_loss / sum_mini_steps` with zero denominator). -/
  | zeroDivisionError
  /-- Python comparison of a float with `None` (`upload_interval` unset). -/
  | typeError
deriving DecidableEq

/-- One peer's decoded progress record (`utils.LocalMetrics`), with exactly the
fields the monitor reads: `step`, `loss`, `samples_accumulated`,
`samples_per_second`, `mini_steps`. -/
structure LocalMetrics where
  step : Int
  loss : ℚ
  samples_accumulated : Int
  samples_per_second : ℚ
  mini_steps : Int
deriving DecidableEq

/-- The `monitor_metrics` dict built on an emitting tick (lines 209-214),
together with the global step the tick recorded (`current_step` at that point). -/
structure GlobalSnapshot where
  step : Int
  loss : ℚ
  alive_peers : Int
  samples : Int
  performance : ℚ
deriving DecidableEq

/-- Mutable fields of `CheckpointHandler` that the loop reads and writes,
plus the two configuration values its methods consult. -/
structure CheckpointHandler where
  save_checkpoint_step_interval : Option Int
  upload_interval : Option ℚ
  previous_step : Int
  previous_timestamp : ℚ
deriving DecidableEq

/-- CheckpointHandler construction (lines 85-108): `previous_step = -1` and
`previous_timestamp` set to the construction-time clock value. -/
def initialHandler (interval : Option Int) (uploadInterval : Option ℚ) (t0 : ℚ) :
    CheckpointHandler :=
  { save_checkpoint_step_interval := interval
    upload_interval := uploadInterval
    previous_step := -1
    previous_timestamp := t0 }

/-- `CheckpointHandler.is_time_to_save_state` (lines 110-116). -/
def is_time_to_save_state (h : CheckpointHandler) (cur_step : Int) : Bool :=
  match h.save_checkpoint_step_interval with
  | none => false
  | some interval => decide (cur_step - h.previous_step ≥ interval)

/-- `CheckpointHandler.save_state` (lines 118-121): `load_state_from_peers()`
then `previous_step = cur_step`. The external pull's outcome is the `pull_ok`
input; when it raises, the assignment on line 121 is never reached, so the
handler is returned unchanged along with the propagating exception. -/
def save_state (h : CheckpointHandler) (cur_step : Int) (pull_ok : Bool) :
    CheckpointHandler × Option PyError :=
  if pull_ok then ({ h with previous_step := cur_step }, none)
  else (h, some .stateAverageFailure)

/-- `CheckpointHandler.is_time_to_upload` (lines 123-127). When
`upload_interval` is `None`, Python's `float >= None` comparison raises
`TypeError`. -/
def is_time_to_upload (h : CheckpointHandler) (now : ℚ) : Except PyError Bool :=
  match h.upload_interval with
  | none => .error .typeError
  | some u => if now - h.previous_timestamp ≥ u then .ok true else .ok false

/-- `CheckpointHandler.upload_checkpoint` (lines 138-141): `hmp.save_pretrained()`
then `previous_timestamp = time.time()`. When the upload raises, the timestamp
assignment is never reached. `tDone` is the clock value read on line 141. -/
def upload_checkpoint (h : CheckpointHandler) (tDone : ℚ) (upload_ok : Bool) :
    CheckpointHandler × Option PyError :=
  if upload_ok then ({ h with previous_timestamp := tDone }, none)
  else (h, some .uploadFailure)

/-- Lines 216-220 of the loop body: the save check, the save, and - only inside
the save branch - the upload check and the upload. `tNow` is the clock value
read by `is_time_to_upload`, `tDone` the one read inside `upload_checkpoint`.
Returns the updated handler plus flags (saved, uploaded), or the propagating
exception. -/
def checkpointPhase (h : CheckpointHandler) (cur_step : Int) (tNow tDone : ℚ)
    (pull_ok upload_ok : Bool) : Except PyError (CheckpointHandler × Bool × Bool) :=
  if is_time_to_save_state h cur_step then
    match save_state h cur_step pull_ok with
    | (_, some e) => .error e
    | (h1, none) =>
      match is_time_to_upload h1 tNow with
      | .error e => .error e
      | .ok false => .ok (h1, true, false)
      | .ok true =>
        match upload_checkpoint h1 tDone upload_ok with
        | (_, some e) => .error e
        | (h2, none) => .ok (h2, true, true)
  else .ok (h, false, false)

/-- Result of `dht.get(experiment_key, latest=True)` on line 180: the call
raised, returned `None`, or returned a mapping of per-peer raw payloads. A raw
payload is `none` when it is malformed (so `parse_obj` raises on it). -/
inductive FetchResult where
  | raised
  | absent
  | present (payload : List (Option LocalMetrics))
deriving DecidableEq

/-- `utils.LocalMetrics.parse_obj(...)` on one raw payload (line 184): yields
the decoded record or raises on a malformed payload. -/
def parse_obj : Option LocalMetrics → Except PyError LocalMetrics
  | none => .error .malformedPeerRecord
  | some m => .ok m

/-- The list comprehension on line 184: decodes every peer payload in order;
the first malformed payload makes the whole comprehension raise. -/
def parseAll : List (Option LocalMetrics) → Except PyError (List LocalMetrics)
  | [] => .ok []
  | r :: rs =>
    match parse_obj r with
    | .error e => .error e
    | .ok m =>
      match parseAll rs with
      | .error e => .error e
      | .ok ms => .ok (m :: ms)

/-- Python `max(item.step for item in metrics)` on line 185: raises
`ValueError` on an empty sequence. -/
def maxStep : List LocalMetrics → Except PyError Int
  | [] => .error .valueError
  | m :: ms => .ok (ms.foldl (fun acc item => max acc item.step) m.step)

/-- The five running accumulators reset on lines 194-198. -/
structure Accum where
  sum_loss : ℚ
  alive_peers : Int
  sum_perf : ℚ
  num_samples : Int
  sum_mini_steps : Int
deriving DecidableEq

/-- One iteration of the `for item in metrics` loop on lines 200-205. -/
def accumStep (acc : Accum) (item : LocalMetrics) : Accum :=
  { sum_loss := acc.sum_loss + item.loss
    alive_peers := acc.alive_peers + 1
    sum_perf := acc.sum_perf + item.samples_per_second
    num_samples := acc.num_samples + item.samples_accumulated
    sum_mini_steps := acc.sum_mini_steps + item.mini_steps }

/-- The whole accumulation loop (lines 194-205) starting from the zeroed
accumulators. -/
def foldMetrics (metrics : List LocalMetrics) : Accum :=
  metrics.foldl accumStep ⟨0, 0, 0, 0, 0⟩

/-- Process-local state of the monitor loop: `current_step`, the last
`monitor_metrics` dict (`none` models the initial empty dict), and the
checkpoint handler (only consulted when `store_checkpoints` is set). -/
structure MonitorState where
  current_step : Int
  monitor_metrics : Option GlobalSnapshot
  handler : CheckpointHandler
deriving DecidableEq

/-- Startup state (lines 174-177): `current_step = 0`, empty
`monitor_metrics`, freshly constructed handler. -/
def initialMonitorState (interval : Option Int) (uploadInterval : Option ℚ)
    (t0 : ℚ) : MonitorState :=
  { current_step := 0
    monitor_metrics := none
    handler := initialHandler interval uploadInterval t0 }

/-- Observable outcome of one completed loop iteration: the state carried to
the next iteration, the snapshot emitted on this tick (if any), and whether a
save and an upload happened. A completed tick always reaches the
`time.sleep(refresh_period)` on line 222. -/
structure TickResult where
  state : MonitorState
  snapshot : Option GlobalSnapshot
  saved : Bool
  uploaded : Bool
deriving DecidableEq

deriving instance DecidableEq for Except

/-- The `current_loss` computed on line 206 and the `monitor_metrics` dict of
lines 209-214, together with `current_step` (equal to `latest_step` at that
point, line 193). Only evaluated once `sum_mini_steps` is known non-zero. -/
def mkSnapshot (latest_step : Int) (metrics : List LocalMetrics) : GlobalSnapshot :=
  { step := latest_step
    loss := (foldMetrics metrics).sum_loss / ((foldMetrics metrics).sum_mini_steps : ℚ)
    alive_peers := (foldMetrics metrics).alive_peers
    samples := (foldMetrics metrics).num_samples
    performance := (foldMetrics metrics).sum_perf }

/-- Lines 185-220 once the decoded metrics list is in hand: compute
`latest_step` (line 185), compare with `current_step` (line 187), and in the
changed case fold the records, divide, build `monitor_metrics` and run the
checkpoint phase. The division on line 206 is unguarded: a zero
`sum_mini_steps` raises `ZeroDivisionError`. -/
def tickOnMetrics (store_checkpoints : Bool) (st : MonitorState)
    (metrics : List LocalMetrics) (tNow tDone : ℚ) (pull_ok upload_ok : Bool) :
    Except PyError TickResult :=
  match maxStep metrics with
  | .error e => .error e
  | .ok latest_step =>
    if latest_step ≠ st.current_step then
      if (foldMetrics metrics).sum_mini_steps = 0 then .error .zeroDivisionError
      else
        if store_checkpoints then
          match checkpointPhase st.handler latest_step tNow tDone pull_ok upload_ok with
          | .error e => .error e
          | .ok (h1, saved, uploaded) =>
            .ok ⟨{ current_step := latest_step
                   monitor_metrics := some (mkSnapshot latest_step metrics)
                   handler := h1 },
                 some (mkSnapshot latest_step metrics), saved, uploaded⟩
        else
          .ok ⟨{ st with current_step := latest_step
                         monitor_metrics := some (mkSnapshot latest_step metrics) },
               some (mkSnapshot latest_step metrics), false, false⟩
    else .ok ⟨st, none, false, false⟩

/-- One full iteration of the `while True` loop (lines 179-223): fetch, decode,
aggregate, checkpoint. `.error` means an exception propagated out of the
iteration; with no try/except in the source, that terminates the process
before the sleep. -/
def monitorTick (store_checkpoints : Bool) (st : MonitorState) (fetch : FetchResult)
    (tNow tDone : ℚ) (pull_ok upload_ok : Bool) : Except PyError TickResult :=
  match fetch with
  | .raised => .error .storeUnavailable
  | .absent => .ok ⟨st, none, false, false⟩
  | .present payload =>
    match parseAll payload with
    | .error e => .error e
    | .ok metrics => tickOnMetrics store_checkpoints st metrics tNow tDone pull_ok upload_ok

/-! ## Basic lemmas about the accumulation loop, the max, and the decoder -/

lemma foldl_accum_sum_loss (metrics : List LocalMetrics) :
    ∀ acc : Accum,
      (metrics.foldl accumStep acc).sum_loss =
        acc.sum_loss + (metrics.map LocalMetrics.loss).sum := by
  induction metrics with
  | nil => intro acc; simp
  | cons m ms ih =>
    intro acc
    simp only [List.foldl_cons, List.map_cons, List.sum_cons, ih, accumStep]
    ring

lemma foldl_accum_sum_mini_steps (metrics : List LocalMetrics) :
    ∀ acc : Accum,
      (metrics.foldl accumStep acc).sum_mini_steps =
        acc.sum_mini_steps + (metrics.map LocalMetrics.mini_steps).sum := by
  induction metrics with
  | nil => intro acc; simp
  | cons m ms ih =>
    intro acc
    simp only [List.foldl_cons, List.map_cons, List.sum_cons, ih, accumStep]
    ring

lemma foldl_accum_alive_peers (metrics : List LocalMetrics) :
    ∀ acc : Accum,
      (metrics.foldl accumStep acc).alive_peers = acc.alive_peers + metrics.length := by
  induction metrics with
  | nil => intro acc; simp
  | cons m ms ih =>
    intro acc
    simp only [List.foldl_cons, List.length_cons, ih, accumStep]
    push_cast
    ring

lemma foldMetrics_sum_loss (metrics : List LocalMetrics) :
    (foldMetrics metrics).sum_loss = (metrics.map LocalMetrics.loss).sum := by
  simpa using foldl_accum_sum_loss metrics ⟨0, 0, 0, 0, 0⟩

lemma foldMetrics_sum_mini_steps (metrics : List LocalMetrics) :
    (foldMetrics metrics).sum_mini_steps = (metrics.map LocalMetrics.mini_steps).sum := by
  simpa using foldl_accum_sum_mini_steps metrics ⟨0, 0, 0, 0, 0⟩

lemma foldMetrics_alive_peers (metrics : List LocalMetrics) :
    (foldMetrics metrics).alive_peers = metrics.length := by
  simpa using foldl_accum_alive_peers metrics ⟨0, 0, 0, 0, 0⟩

lemma foldl_max_step (metrics : List LocalMetrics) :
    ∀ a : Int,
      (a ≤ metrics.foldl (fun acc item => max acc item.step) a) ∧
      (metrics.foldl (fun acc item => max acc item.step) a = a ∨
        ∃ m ∈ metrics, metrics.foldl (fun acc item => max acc item.step) a = m.step) ∧
      (∀ m ∈ metrics, m.step ≤ metrics.foldl (fun acc item => max acc item.step) a) := by
  induction metrics with
  | nil => intro a; simp
  | cons x xs ih =>
    intro a
    simp only [List.foldl_cons]
    obtain ⟨hle, hmem, hub⟩ := ih (max a x.step)
    refine ⟨le_trans (le_max_left _ _) hle, ?_, ?_⟩
    · rcases hmem with heq | ⟨m, hm, heq⟩
      · rcases max_choice a x.step with hc | hc
        · exact Or.inl (by rw [heq, hc])
        · exact Or.inr ⟨x, List.mem_cons_self x xs, by rw [heq, hc]⟩
      · exact Or.inr ⟨m, List.mem_cons_of_mem x hm, heq⟩
    · intro m hm
      rcases List.mem_cons.mp hm with rfl | hm
      · exact le_trans (le_max_right _ _) hle
      · exact hub m hm

lemma maxStep_eq_ok (metrics : List LocalMetrics) (hne : metrics ≠ []) :
    ∃ v, maxStep metrics = .ok v ∧ (∃ m ∈ metrics, v = m.step) ∧
      ∀ m ∈ metrics, m.step ≤ v := by
  match metrics, hne with
  | x :: xs, _ =>
    refine ⟨_, rfl, ?_, ?_⟩
    · obtain ⟨_, hmem, _⟩ := foldl_max_step xs x.step
      rcases hmem with heq | ⟨m, hm, heq⟩
      · exact ⟨x, List.mem_cons_self x xs, heq⟩
      · exact ⟨m, List.mem_cons_of_mem x hm, heq⟩
    · intro m hm
      obtain ⟨hle, _, hub⟩ := foldl_max_step xs x.step
      rcases List.mem_cons.mp hm with rfl | hm
      · exact hle
      · exact hub m hm

lemma maxStep_all_zero (metrics : List LocalMetrics) (hne : metrics ≠ [])
    (hz : ∀ m ∈ metrics, m.step = 0) : maxStep metrics = .ok 0 := by
  obtain ⟨v, hok, ⟨m, hm, hv⟩, _⟩ := maxStep_eq_ok metrics hne
  rw [hok, hv, hz m hm]

lemma parseAll_malformed (payload : List (Option LocalMetrics))
    (h : none ∈ payload) : parseAll payload = .error .malformedPeerRecord := by
  induction payload with
  | nil => cases h
  | cons r rs ih =>
    cases r with
    | none => rfl
    | some m =>
      have hrs : none ∈ rs := by
        rcases List.mem_cons.mp h with h1 | h1
        · simp at h1
        · exact h1
      simp only [parseAll, parse_obj]
      rw [ih hrs]

lemma parseAll_ok_ne_nil (payload : List (Option LocalMetrics))
    (metrics : List LocalMetrics) (hp : parseAll payload = .ok metrics)
    (hne : payload ≠ []) : metrics ≠ [] := by
  match payload, hne with
  | r :: rs, _ =>
    cases r with
    | none => simp [parseAll, parse_obj] at hp
    | some m =>
      simp only [parseAll, parse_obj] at hp
      rcases hrs : parseAll rs with e | ms
      · rw [hrs] at hp; cases hp
      · rw [hrs] at hp
        cases hp
        exact List.cons_ne_nil m ms

/-! ## Inversion lemmas for one tick -/

lemma tick_tie (sc : Bool) (st : MonitorState) (payload : List (Option LocalMetrics))
    (tN tD : ℚ) (pok uok : Bool) (metrics : List LocalMetrics)
    (hp : parseAll payload = .ok metrics)
    (hm : maxStep metrics = .ok st.current_step) :
    monitorTick sc st (.present payload) tN tD pok uok = .ok ⟨st, none, false, false⟩ := by
  simp [monitorTick, hp, tickOnMetrics, hm]

lemma tick_emits (sc : Bool) (st : MonitorState) (payload : List (Option LocalMetrics))
    (tN tD : ℚ) (pok uok : Bool) (metrics : List LocalMetrics) (r : TickResult)
    (snap : GlobalSnapshot)
    (hp : parseAll payload = .ok metrics)
    (ht : monitorTick sc st (.present payload) tN tD pok uok = .ok r)
    (hs : r.snapshot = some snap) :
    snap = mkSnapshot snap.step metrics ∧
    maxStep metrics = .ok snap.step ∧
    snap.step ≠ st.current_step ∧
    (foldMetrics metrics).sum_mini_steps ≠ 0 ∧
    r.state.current_step = snap.step := by
  simp only [monitorTick, hp, tickOnMetrics] at ht
  split at ht
  · simp at ht
  · rename_i latest hmx
    split at ht
    · rename_i hne
      split at ht
      · simp at ht
      · rename_i hz
        split at ht
        · split at ht
          · simp at ht
          · rename_i h1 saved uploaded hcp
            cases ht
            cases hs
            exact ⟨rfl, hmx, hne, hz, rfl⟩
        · cases ht
          cases hs
          exact ⟨rfl, hmx, hne, hz, rfl⟩
    · rename_i hne
      cases ht
      cases hs

lemma tick_ok_state_step (sc : Bool) (st : MonitorState)
    (payload : List (Option LocalMetrics)) (tN tD : ℚ) (pok uok : Bool)
    (metrics : List LocalMetrics) (r : TickResult)
    (hp : parseAll payload = .ok metrics)
    (ht : monitorTick sc st (.present payload) tN tD pok uok = .ok r) :
    maxStep metrics = .ok r.state.current_step := by
  simp only [monitorTick, hp, tickOnMetrics] at ht
  split at ht
  · simp at ht
  · rename_i latest hmx
    split at ht
    · rename_i hne
      split at ht
      · simp at ht
      · rename_i hz
        split at ht
        · split at ht
          · simp at ht
          · rename_i h1 saved uploaded hcp
            cases ht
            exact hmx
        · cases ht
          exact hmx
    · rename_i hne
      cases ht
      simp only [ne_eq, not_not] at hne
      rw [hmx, hne]

lemma tick_zero_division (sc : Bool) (st : MonitorState)
    (payload : List (Option LocalMetrics)) (tN tD : ℚ) (pok uok : Bool)
    (metrics : List LocalMetrics) (latest : Int)
    (hp : parseAll payload = .ok metrics)
    (hm : maxStep metrics = .ok latest)
    (hne : latest ≠ st.current_step)
    (hz : (foldMetrics metrics).sum_mini_steps = 0) :
    monitorTick sc st (.present payload) tN tD pok uok = .error .zeroDivisionError := by
  simp [monitorTick, hp, tickOnMetrics, hm, hne, hz]

/-! ## Concrete inputs used by witnesses and counterexamples -/

/-- A handler with checkpointing configuration absent. -/
def handlerA : CheckpointHandler :=
  { save_checkpoint_step_interval := none
    upload_interval := none
    previous_step := -1
    previous_timestamp := 0 }

/-- Scenario A, peer p1: step 5, loss 1.0, mini_steps 2. -/
def recA1 : LocalMetrics :=
  { step := 5, loss := 1, samples_accumulated := 0, samples_per_second := 0, mini_steps := 2 }

/-- Scenario A, peer p2: step 5, loss 3.0, mini_steps 2. -/
def recA2 : LocalMetrics :=
  { step := 5, loss := 3, samples_accumulated := 0, samples_per_second := 0, mini_steps := 2 }

/-- Scenario A monitor state: previous global step 4. -/
def stA : MonitorState :=
  { current_step := 4, monitor_metrics := none, handler := handlerA }

/-- The snapshot Scenario A produces. -/
def snapA : GlobalSnapshot := mkSnapshot 5 [recA1, recA2]

/-- The tick result Scenario A produces. -/
def resA : TickResult :=
  ⟨{ current_step := 5, monitor_metrics := some snapA, handler := handlerA },
   some snapA, false, false⟩

/-- A monitor state whose previous global step is 5 (reachable: a peer at
step 5 published on an earlier tick and has since expired from the store). -/
def stepFiveState : MonitorState :=
  { current_step := 5, monitor_metrics := none, handler := handlerA }

/-- A well-formed record at step 3, below the previous global step 5. -/
def stepThreeRecord : LocalMetrics :=
  { step := 3, loss := 1, samples_accumulated := 0, samples_per_second := 0, mini_steps := 1 }

/-- A well-formed record at step 5, tying the previous global step 5. -/
def stepFiveRecord : LocalMetrics :=
  { step := 5, loss := 1, samples_accumulated := 0, samples_per_second := 0, mini_steps := 1 }

/-- The startup state with checkpointing configuration left at its defaults. -/
def startState : MonitorState := initialMonitorState none none 0

/-- A record at step 1 with zero mini_steps. -/
def zeroMiniRecord : LocalMetrics :=
  { step := 1, loss := 1, samples_accumulated := 0, samples_per_second := 0, mini_steps := 0 }

/-- A record at step 0. -/
def zeroStepRecord : LocalMetrics :=
  { step := 0, loss := 1, samples_accumulated := 0, samples_per_second := 0, mini_steps := 1 }

/-- Scenario C handler: save interval 10, last saved step 0. -/
def handlerC : CheckpointHandler :=
  { save_checkpoint_step_interval := some 10
    upload_interval := some 1
    previous_step := 0
    previous_timestamp := 0 }

/-! ## Claim C1 -/

/-- Claim C1 as frozen is false on the code: with previous global step 5 and a
non-empty decoded mapping whose maximum peer step is 3, the maximum step did
not increase, yet the loop emits a snapshot (line 187 compares with !=, not
with >). -/
theorem snapshot_emitted_without_increase :
    monitorTick false stepFiveState (.present [some stepThreeRecord]) 0 0 true true
      = .ok ⟨{ current_step := 3
               monitor_metrics := some (mkSnapshot 3 [stepThreeRecord])
               handler := handlerA },
             some (mkSnapshot 3 [stepThreeRecord]), false, false⟩ ∧
    ¬ stepFiveState.current_step < (mkSnapshot 3 [stepThreeRecord]).step :=
  ⟨rfl, by decide⟩

/-- Claim C1 (amended): on a tick with a non-empty decoded mapping, a snapshot
is emitted only if the maximum peer step differs from the previous global step
(not only on strict increase: a decrease also emits); if the maximum step
equals the previous global step, no snapshot is emitted and the state - in
particular the previous global step - is unchanged. -/
theorem snapshot_iff_step_changed (sc : Bool) (st : MonitorState)
    (payload : List (Option LocalMetrics)) (tN tD : ℚ) (pok uok : Bool)
    (metrics : List LocalMetrics)
    (hp : parseAll payload = .ok metrics) :
    (∀ r snap, monitorTick sc st (.present payload) tN tD pok uok = .ok r →
        r.snapshot = some snap → snap.step ≠ st.current_step) ∧
    (maxStep metrics = .ok st.current_step →
        monitorTick sc st (.present payload) tN tD pok uok = .ok ⟨st, none, false, false⟩) := by
  constructor
  · intro r snap ht hs
    exact (tick_emits sc st payload tN tD pok uok metrics r snap hp ht hs).2.2.1
  · intro hm
    exact tick_tie sc st payload tN tD pok uok metrics hp hm

/-- Claim C1 witness: a tie at step 5 emits nothing and leaves the state
unchanged. -/
theorem snapshot_iff_step_changed_witness :
    monitorTick false stepFiveState (.present [some stepFiveRecord]) 0 0 true true
      = .ok ⟨stepFiveState, none, false, false⟩ :=
  (snapshot_iff_step_changed false stepFiveState [some stepFiveRecord] 0 0 true true
    [stepFiveRecord] rfl).2 rfl

/-! ## Claim C2 -/

/-- Claim C2: whenever a tick emits a snapshot, the decoded records' total
mini_steps is non-zero and the snapshot's aggregate loss times the total
mini_steps equals the total loss, i.e. aggregate_loss is exactly
the ratio of the loss sum to the mini_steps sum; the alive-peer count is the
number of records. -/
theorem aggregate_loss_ratio (sc : Bool) (st : MonitorState)
    (payload : List (Option LocalMetrics)) (tN tD : ℚ) (pok uok : Bool)
    (metrics : List LocalMetrics) (r : TickResult) (snap : GlobalSnapshot)
    (hp : parseAll payload = .ok metrics)
    (ht : monitorTick sc st (.present payload) tN tD pok uok = .ok r)
    (hs : r.snapshot = some snap) :
    (metrics.map LocalMetrics.mini_steps).sum ≠ 0 ∧
    snap.loss * ((metrics.map LocalMetrics.mini_steps).sum : ℚ) =
      (metrics.map LocalMetrics.loss).sum ∧
    snap.alive_peers = metrics.length := by
  obtain ⟨hsnap, hmx, hne, hz, hcur⟩ :=
    tick_emits sc st payload tN tD pok uok metrics r snap hp ht hs
  have hz' : (metrics.map LocalMetrics.mini_steps).sum ≠ 0 := by
    rw [← foldMetrics_sum_mini_steps]; exact hz
  refine ⟨hz', ?_, ?_⟩
  · conv_lhs => rw [hsnap]
    simp only [mkSnapshot, foldMetrics_sum_loss, foldMetrics_sum_mini_steps]
    exact div_mul_cancel₀ _ (Int.cast_ne_zero.mpr hz')
  · conv_lhs => rw [hsnap]
    simp only [mkSnapshot, foldMetrics_alive_peers]

/-- Claim C2 witness, Scenario A: records (step 5, loss 1.0, mini_steps 2) and
(step 5, loss 3.0, mini_steps 2), previous global step 4, yield a snapshot
with step 5, alive_peers 2 and aggregate loss 1.0 satisfying the ratio
equation. -/
theorem aggregate_loss_ratio_witness :
    monitorTick false stA (.present [some recA1, some recA2]) 0 0 true true = .ok resA ∧
    (([recA1, recA2].map LocalMetrics.mini_steps).sum ≠ 0 ∧
      snapA.loss * ((([recA1, recA2].map LocalMetrics.mini_steps).sum : Int) : ℚ) =
        ([recA1, recA2].map LocalMetrics.loss).sum ∧
      snapA.alive_peers = [recA1, recA2].length) ∧
    snapA = { step := 5, loss := 1, alive_peers := 2, samples := 0, performance := 0 } :=
  ⟨rfl,
   aggregate_loss_ratio false stA [some recA1, some recA2] 0 0 true true
     [recA1, recA2] resA snapA rfl rfl rfl,
   by
     simp only [snapA, mkSnapshot, foldMetrics, accumStep, List.foldl_cons, List.foldl_nil,
       recA1, recA2, GlobalSnapshot.mk.injEq]
     norm_num⟩

/-! ## Claim C3 -/

/-- Claim C3 is false as stated: the division on line 206 is not guarded, and
its divide-by-zero branch is reachable: a single record at step 1 with zero
mini_steps, against previous global step 0, passes the step check and raises
ZeroDivisionError. -/
theorem division_by_zero_reachable :
    monitorTick false startState (.present [some zeroMiniRecord]) 0 0 true true
      = .error .zeroDivisionError := rfl

/-- Claim C3 (amended): the division deciding aggregate_loss is unguarded:
on every tick where the step check passes but the records' total mini_steps is
zero, the tick raises ZeroDivisionError (the divide-by-zero branch is
reachable, not unreachable). -/
theorem division_unguarded (sc : Bool) (st : MonitorState)
    (payload : List (Option LocalMetrics)) (tN tD : ℚ) (pok uok : Bool)
    (metrics : List LocalMetrics) (latest : Int)
    (hp : parseAll payload = .ok metrics)
    (hm : maxStep metrics = .ok latest)
    (hne : latest ≠ st.current_step)
    (hz : (metrics.map LocalMetrics.mini_steps).sum = 0) :
    monitorTick sc st (.present payload) tN tD pok uok = .error .zeroDivisionError := by
  have hz' : (foldMetrics metrics).sum_mini_steps = 0 := by
    rw [foldMetrics_sum_mini_steps]; exact hz
  exact tick_zero_division sc st payload tN tD pok uok metrics latest hp hm hne hz'

/-- Claim C3 witness for the amended statement at a concrete input. -/
theorem division_unguarded_witness :
    monitorTick true startState (.present [some zeroMiniRecord]) 0 0 true true
      = .error .zeroDivisionError :=
  division_unguarded true startState [some zeroMiniRecord] 0 0 true true
    [zeroMiniRecord] 1 rfl rfl (by decide) (by decide)

/-! ## Claim C4 -/

/-- Claim C4: with a configured save interval n, the save check passes exactly
when cur_step - previous_step ≥ n; when it fails the checkpoint phase performs
no save and leaves the handler unchanged; when it passes, a successful
state-pull sets previous_step to cur_step, and every completed checkpoint
phase reports a save and a handler whose previous_step is cur_step. -/
theorem save_cadence (h : CheckpointHandler) (n cur : Int) (tN tD : ℚ) (uok : Bool)
    (hint : h.save_checkpoint_step_interval = some n) :
    (is_time_to_save_state h cur = true ↔ n ≤ cur - h.previous_step) ∧
    (cur - h.previous_step < n →
      checkpointPhase h cur tN tD true uok = .ok (h, false, false)) ∧
    (n ≤ cur - h.previous_step →
      (save_state h cur true).1.previous_step = cur ∧
      ∀ h1 s u, checkpointPhase h cur tN tD true uok = .ok (h1, s, u) →
        s = true ∧ h1.previous_step = cur) := by
  have hiff : is_time_to_save_state h cur = true ↔ n ≤ cur - h.previous_step := by
    simp [is_time_to_save_state, hint]
  refine ⟨hiff, ?_, ?_⟩
  · intro hlt
    have : is_time_to_save_state h cur = false := by
      rw [← Bool.not_eq_true, hiff]
      exact not_le.mpr hlt
    simp [checkpointPhase, this]
  · intro hge
    refine ⟨rfl, ?_⟩
    intro h1 s u hcp
    have htime : is_time_to_save_state h cur = true := hiff.mpr hge
    simp only [checkpointPhase, htime, if_true, save_state, ite_true] at hcp
    split at hcp
    · cases hcp
    · cases hcp
      exact ⟨rfl, rfl⟩
    · split at hcp
      · cases hcp
      · rename_i h2 heq
        cases hcp
        refine ⟨rfl, ?_⟩
        rw [upload_checkpoint] at heq
        split at heq
        · cases heq
          rfl
        · simp at heq

/-- Claim C4 witness, Scenario C: interval 10 and last saved step 0: incoming
step 9 triggers no save and leaves the handler unchanged; step 10 passes the
check, and the successful save sets previous_step to 10. -/
theorem save_cadence_witness :
    is_time_to_save_state handlerC 9 = false ∧
    checkpointPhase handlerC 9 0 0 true true = .ok (handlerC, false, false) ∧
    is_time_to_save_state handlerC 10 = true ∧
    (save_state handlerC 10 true).1.previous_step = 10 :=
  ⟨by decide,
   (save_cadence handlerC 10 9 0 0 true rfl).2.1 (by decide),
   by decide,
   ((save_cadence handlerC 10 10 0 0 true rfl).2.2 (by decide)).1⟩

/-! ## Claim C5 -/

/-- Claim C5: the upload check is evaluated only immediately after a successful
save on the same tick - an upload implies a save, a failing save check means
an untouched handler and no upload, and a failed save aborts the phase before
any upload-interval comparison (so even an unset upload_interval raises
nothing) - and after a successful save the upload triggers exactly when
tNow - previous_timestamp ≥ upload_interval. -/
theorem upload_cadence (h : CheckpointHandler) (cur : Int) (tN tD : ℚ)
    (pok uok : Bool) (uI : ℚ) :
    (∀ h1 s u, checkpointPhase h cur tN tD pok uok = .ok (h1, s, u) →
        u = true → s = true) ∧
    (is_time_to_save_state h cur = false →
      checkpointPhase h cur tN tD pok uok = .ok (h, false, false)) ∧
    (is_time_to_save_state h cur = true → pok = false →
      checkpointPhase h cur tN tD pok uok = .error .stateAverageFailure) ∧
    (is_time_to_save_state h cur = true → h.upload_interval = some uI →
      (uI ≤ tN - h.previous_timestamp →
        checkpointPhase h cur tN tD true true
          = .ok ({ h with previous_step := cur, previous_timestamp := tD }, true, true)) ∧
      (tN - h.previous_timestamp < uI →
        checkpointPhase h cur tN tD true uok
          = .ok ({ h with previous_step := cur }, true, false))) := by
  refine ⟨?_, ?_, ?_, ?_⟩
  · intro h1 s u hcp hu
    rw [checkpointPhase] at hcp
    split at hcp
    · split at hcp
      · cases hcp
      · split at hcp
        · cases hcp
        · cases hcp
          rfl
        · split at hcp
          · cases hcp
          · cases hcp
            rfl
    · cases hcp
      cases hu
  · intro hfalse
    simp [checkpointPhase, hfalse]
  · intro htime hpok
    subst hpok
    simp [checkpointPhase, htime, save_state]
  · intro htime huI
    constructor
    · intro hle
      simp [checkpointPhase, htime, save_state, is_time_to_upload, huI, hle,
        upload_checkpoint]
    · intro hlt
      simp [checkpointPhase, htime, save_state, is_time_to_upload, huI,
        not_le.mpr hlt]

/-- Claim C5 witness: with interval 10 satisfied at step 10 and upload
interval 1 satisfied at time 5, the phase saves and uploads, stamping the
upload completion time 7. -/
theorem upload_cadence_witness :
    checkpointPhase handlerC 10 5 7 true true
      = .ok ({ handlerC with previous_step := 10, previous_timestamp := 7 }, true, true) :=
  ((upload_cadence handlerC 10 5 7 true true 1).2.2.2 (by decide) rfl).1
    (by norm_num [handlerC])

/-! ## Claim C6 -/

/-- Claim C6: a state-pull that raises aborts save_state before the
previous_step assignment, so the handler - in particular previous_step - is
returned unchanged with the propagating error; an upload that raises aborts
upload_checkpoint before the previous_timestamp assignment, so the handler -
in particular previous_timestamp - is returned unchanged with the propagating
error. -/
theorem failed_attempt_preserves_bookkeeping (h : CheckpointHandler) (cur : Int)
    (tD : ℚ) :
    save_state h cur false = (h, some .stateAverageFailure) ∧
    upload_checkpoint h tD false = (h, some .uploadFailure) :=
  ⟨rfl, rfl⟩

/-! ## Claim C7 -/

/-- Claim C7 is false as stated: a tick with one well-formed and one malformed
peer record does not skip the malformed record and aggregate the rest: the
whole decode comprehension raises, the error is not caught anywhere in the
loop, and the process terminates instead of sleeping and retrying. -/
theorem malformed_record_aborts_tick :
    monitorTick false stA (.present [some recA1, none]) 0 0 true true
      = .error .malformedPeerRecord := rfl

/-- Claim C7 (amended): no error is contained at the tick boundary: a raised
store read, a malformed peer record anywhere in the mapping, a failed
state-pull and a failed upload each propagate out of the iteration as
exceptions (the loop has no try/except, so the process terminates); only an
absent mapping is handled, as a no-data tick that proceeds to sleep and
retry. -/
theorem errors_propagate_out_of_tick (sc : Bool) (st : MonitorState)
    (payload : List (Option LocalMetrics)) (tN tD : ℚ) (pok uok : Bool)
    (h : CheckpointHandler) (cur : Int) (uI : ℚ) :
    monitorTick sc st .raised tN tD pok uok = .error .storeUnavailable ∧
    (none ∈ payload →
      monitorTick sc st (.present payload) tN tD pok uok
        = .error .malformedPeerRecord) ∧
    (is_time_to_save_state h cur = true →
      checkpointPhase h cur tN tD false uok = .error .stateAverageFailure) ∧
    (is_time_to_save_state h cur = true → h.upload_interval = some uI →
      uI ≤ tN - h.previous_timestamp →
      checkpointPhase h cur tN tD true false = .error .uploadFailure) ∧
    monitorTick sc st .absent tN tD pok uok = .ok ⟨st, none, false, false⟩ := by
  refine ⟨rfl, ?_, ?_, ?_, rfl⟩
  · intro hnone
    simp [monitorTick, parseAll_malformed payload hnone]
  · intro htime
    simp [checkpointPhase, htime, save_state]
  · intro htime huI hle
    simp [checkpointPhase, htime, save_state, is_time_to_upload, huI, hle,
      upload_checkpoint]

/-- Claim C7 witness: the malformed-record conjunct applied to a concrete
single-entry mapping. -/
theorem errors_propagate_out_of_tick_witness :
    monitorTick true startState (.present [none]) 0 0 true true
      = .error .malformedPeerRecord :=
  (errors_propagate_out_of_tick true startState [none] 0 0 true true
    handlerC 10 1).2.1 (by decide)

/-! ## Claim C8 -/

/-- Claim C8 is false as stated: a present but empty peer mapping does not
complete the tick without error: max() over the empty step sequence raises
ValueError, which propagates to the caller. -/
theorem empty_mapping_raises :
    monitorTick false stA (.present []) 0 0 true true = .error .valueError := rfl

/-- Claim C8 (amended): an absent mapping yields no snapshot, raises nothing,
leaves the whole state (including the global step) unchanged, and the tick
completes to the sleep; a present but empty mapping instead raises ValueError
from max() over an empty sequence, which is not contained. -/
theorem absent_no_snapshot_empty_raises (sc : Bool) (st : MonitorState)
    (tN tD : ℚ) (pok uok : Bool) :
    monitorTick sc st .absent tN tD pok uok = .ok ⟨st, none, false, false⟩ ∧
    monitorTick sc st (.present []) tN tD pok uok = .error .valueError :=
  ⟨rfl, rfl⟩

/-! ## Claim C9 -/

/-- Claim C9: on every completed tick with a non-empty decoded mapping, the
global step recorded for the tick equals the maximum of the records' step
fields: it is the step of one of the records and an upper bound of all of
them (this holds both when a snapshot is emitted and on a tie, where the
unchanged previous step already equals the maximum). -/
theorem global_step_is_max_of_peer_steps (sc : Bool) (st : MonitorState)
    (payload : List (Option LocalMetrics)) (tN tD : ℚ) (pok uok : Bool)
    (metrics : List LocalMetrics) (r : TickResult)
    (hp : parseAll payload = .ok metrics)
    (hne : metrics ≠ [])
    (ht : monitorTick sc st (.present payload) tN tD pok uok = .ok r) :
    (∃ m ∈ metrics, r.state.current_step = m.step) ∧
    ∀ m ∈ metrics, m.step ≤ r.state.current_step := by
  have hmx := tick_ok_state_step sc st payload tN tD pok uok metrics r hp ht
  obtain ⟨v, hok, hmem, hub⟩ := maxStep_eq_ok metrics hne
  rw [hok] at hmx
  cases hmx
  exact ⟨hmem, hub⟩

/-- Claim C9 witness: Scenario A's records, whose maximum step 5 is recorded. -/
theorem global_step_is_max_of_peer_steps_witness :
    (∃ m ∈ [recA1, recA2], resA.state.current_step = m.step) ∧
    ∀ m ∈ [recA1, recA2], m.step ≤ resA.state.current_step :=
  global_step_is_max_of_peer_steps false stA [some recA1, some recA2] 0 0 true true
    [recA1, recA2] resA rfl (by decide) rfl

/-! ## Claim C10 -/

/-- Claim C10: the monitor starts with current_step = 0 rather than a
below-any-step sentinel, so while every decoded record reports step 0 the
tick is a tie: no snapshot is emitted, no aggregate loss is computed, no
checkpoint evaluation happens and the state is unchanged; a snapshot from a
step-0 state requires a maximum peer step different from 0. -/
theorem no_progress_reported_at_step_zero (sc : Bool)
    (payload : List (Option LocalMetrics)) (tN tD : ℚ) (pok uok : Bool)
    (metrics : List LocalMetrics)
    (hp : parseAll payload = .ok metrics) :
    (∀ interval uploadInterval t0,
      (initialMonitorState interval uploadInterval t0).current_step = 0) ∧
    (∀ st : MonitorState, st.current_step = 0 → metrics ≠ [] →
      (∀ m ∈ metrics, m.step = 0) →
      monitorTick sc st (.present payload) tN tD pok uok
        = .ok ⟨st, none, false, false⟩) ∧
    (∀ st r snap, st.current_step = 0 →
      monitorTick sc st (.present payload) tN tD pok uok = .ok r →
      r.snapshot = some snap → snap.step ≠ 0) := by
  refine ⟨fun _ _ _ => rfl, ?_, ?_⟩
  · intro st hst hne hz
    refine tick_tie sc st payload tN tD pok uok metrics hp ?_
    rw [hst]
    exact maxStep_all_zero metrics hne hz
  · intro st r snap hst ht hs
    have hstep := (tick_emits sc st payload tN tD pok uok metrics r snap hp ht hs).2.2.1
    rw [hst] at hstep
    exact hstep

/-- Claim C10 witness: from the startup state, a tick whose only record is at
step 0 emits nothing and changes nothing. -/
theorem no_progress_reported_at_step_zero_witness :
    monitorTick false startState (.present [some zeroStepRecord]) 0 0 true true
      = .ok ⟨startState, none, false, false⟩ :=
  (no_progress_reported_at_step_zero false [some zeroStepRecord] 0 0 true true
    [zeroStepRecord] rfl).2.1 startState rfl (by decide) (by decide)
